/-
Verification of the P4-DPI orchestrator (`scripts/start_dpi.py`).

The orchestrator class `DPISystem` holds:
  * `running`           — the RunningFlag (`self.running`)
  * `controller`        — collaborator reference (`self.controller`, set to None
                          in `__init__` and never assigned elsewhere)
  * `traffic_generator` — collaborator reference (`self.traffic_generator`)
  * `topology`          — collaborator reference (`self.topology`)
  * `logger_component`  — whether the `logger_component` attribute exists
                          (`hasattr(self, 'logger_component')`)
  * `threads`           — the ThreadHandle registry (`self.threads`, a list)
  * `processes`         — the ProcessHandle registry (`self.processes`, a dict
                          keyed by logical name; modelled as the list of keys in
                          insertion order, which is faithful because the code
                          only inserts fresh keys and iterates `.items()`)

External nondeterminism (subprocess results, exceptions raised by
collaborators, whether a graceful wait times out) is captured by environment
records; the Python functions become Lean functions of (environment, state).
-/
import Mathlib

namespace DPI

/-- Orchestrator state: the mutable attributes of a `DPISystem` instance that
the orchestration logic reads and writes. -/
structure DPIState where
  running : Bool
  controller : Option Unit
  trafficGenerator : Option Unit
  topology : Option Unit
  loggerComponent : Bool
  threads : List String
  processes : List String
  deriving Repr, DecidableEq

/-- The state produced by `DPISystem.__init__` (lines 28-45): RunningFlag
false, all collaborator references None / absent, both registries empty. -/
def initialState : DPIState :=
  { running := false
    controller := none
    trafficGenerator := none
    topology := none
    loggerComponent := false
    threads := []
    processes := [] }

/-! ### Configuration loading (`load_config`, lines 47-54, and `__init__`) -/

/-- Python exceptions relevant to `load_config`. -/
inductive PyError where
  | fileNotFound
  | attributeError
  deriving Repr, DecidableEq

/-- A loaded configuration, modelled abstractly as an association list of
top-level keys (the code only ever calls `.get` on it). -/
def Config := List (String × String)

/-- The empty configuration `{}` that the `FileNotFoundError` handler returns
when it completes. -/
def emptyConfig : Config := []

/-- Environment for construction: whether the configuration file exists, and
its parsed contents when it does. -/
structure InitEnv where
  configFileExists : Bool
  configContents : Config

/-- `DPISystem.load_config` (lines 47-54): `open` the file and parse it; on
`FileNotFoundError` the handler evaluates `self.logger.error(...)`.  When the
`logger` attribute has not been initialized yet that dereference itself raises
`AttributeError`; only when a logger is present does the handler finish and
return the empty configuration. -/
def loadConfig (env : InitEnv) (loggerInitialized : Bool) : Except PyError Config :=
  if env.configFileExists then
    Except.ok env.configContents
  else if loggerInitialized then
    Except.ok emptyConfig
  else
    Except.error PyError.attributeError

/-- `DPISystem.__init__` (lines 28-45): calls `load_config` as its very first
statement, before `self.logger = None` / `setup_logging()` run, so the logger
attribute is not initialized during that call.  On success it produces
`initialState`. -/
def dpiInit (env : InitEnv) : Except PyError DPIState :=
  match loadConfig env false with
  | Except.error e => Except.error e
  | Except.ok _ => Except.ok initialState

/-! ### Compilation step (`compile_p4_program`, lines 75-117) -/

/-- Environment for one run of `compile_p4_program`: whether the `p4c` binary
exists (if absent, `subprocess.run` raises `FileNotFoundError`, caught by the
enclosing handler), and the return codes of the version probe and of the
compilation proper. -/
structure CompileEnv where
  compilerAbsent : Bool
  versionReturncode : Nat
  compileReturncode : Nat

/-- `DPISystem.compile_p4_program` (lines 75-117): probe `p4c --version`
(an absent binary raises, which the `except` clause turns into `False`; a
non-zero returncode also yields `False`), then compile; non-zero compilation
returncode yields `False`, otherwise `True`. -/
def compileP4Program (env : CompileEnv) : Bool :=
  if env.compilerAbsent then false
  else if env.versionReturncode ≠ 0 then false
  else if env.compileReturncode ≠ 0 then false
  else true

/-! ### The six sequenced startup actions (lines 119-281) -/

/-- Environment for the sequenced startup actions: which action raises an
exception during construction/launch (each action catches its own exception
and returns `False`), the configured switch list, and for the controller
action the point at which an exception interrupts the launch loop. -/
structure StartEnv where
  compile : CompileEnv
  topologyRaises : Bool
  /-- the best-effort `start_traffic_generation` sub-step of the topology
  action raises (caught by the inner handler, logged as a warning) -/
  topologyTrafficRaises : Bool
  /-- names of the switches in `config['switches']` -/
  switches : List String
  /-- `some k`: an exception interrupts `start_p4_controller` after the first
  `k` worker processes have been launched; `none`: no exception. -/
  controllerRaisesAfter : Option Nat
  packetLoggerRaises : Bool
  trafficGenRaises : Bool
  webRaises : Bool
  monitoringRaises : Bool

/-- `start_mininet_topology` (lines 119-148): construct the topology, start
its bring-up thread (recorded in the ThreadHandle registry), best-effort start
built-in traffic (its failure is only logged), return `True`; a construction
exception is caught and yields `False` with no state change. -/
def startMininetTopology (env : StartEnv) (st : DPIState) : DPIState × Bool :=
  if env.topologyRaises then (st, false)
  else
    ({ st with topology := some ()
               threads := st.threads ++ ["topology"] }, true)

/-- `start_p4_controller` (lines 150-184): for each configured switch launch
one worker process recorded under the key `p4c_<name>`; an empty switch list
returns `True` with a warning; an exception after `k` launches leaves those
`k` handles registered and returns `False`. -/
def startP4Controller (env : StartEnv) (st : DPIState) : DPIState × Bool :=
  match env.controllerRaisesAfter with
  | some k =>
      ({ st with processes :=
          st.processes ++ (env.switches.take k).map (fun n => "p4c_" ++ n) }, false)
  | none =>
      ({ st with processes :=
          st.processes ++ env.switches.map (fun n => "p4c_" ++ n) }, true)

/-- `start_packet_logger` (lines 186-197): construct the `PacketLogger`
collaborator (creating the `logger_component` attribute); an exception yields
`False`. -/
def startPacketLogger (env : StartEnv) (st : DPIState) : DPIState × Bool :=
  if env.packetLoggerRaises then (st, false)
  else ({ st with loggerComponent := true }, true)

/-- `start_traffic_generator` (lines 199-219): construct the collaborator and
start its generation thread (recorded in the ThreadHandle registry). -/
def startTrafficGenerator (env : StartEnv) (st : DPIState) : DPIState × Bool :=
  if env.trafficGenRaises then (st, false)
  else
    ({ st with trafficGenerator := some ()
               threads := st.threads ++ ["traffic_generation"] }, true)

/-- `start_web_interface` (lines 221-236): spawn the Flask API process,
recorded in the ProcessHandle registry under `flask_api`. -/
def startWebInterface (env : StartEnv) (st : DPIState) : DPIState × Bool :=
  if env.webRaises then (st, false)
  else ({ st with processes := st.processes ++ ["flask_api"] }, true)

/-- `start_monitoring` (lines 263-281): start the monitoring thread, recorded
in the ThreadHandle registry. -/
def startMonitoring (env : StartEnv) (st : DPIState) : DPIState × Bool :=
  if env.monitoringRaises then (st, false)
  else ({ st with threads := st.threads ++ ["monitoring"] }, true)

/-- The six components of the fixed ordered list in `start_system`
(lines 356-363). -/
inductive Comp where
  | topology
  | controller
  | packetLogger
  | trafficGen
  | webInterface
  | monitoring
  deriving Repr, DecidableEq

/-- The display name each component is registered under in `start_system`. -/
def compName : Comp → String
  | Comp.topology => "Mininet Topology"
  | Comp.controller => "P4 Controller"
  | Comp.packetLogger => "Packet Logger"
  | Comp.trafficGen => "Traffic Generator"
  | Comp.webInterface => "Web Interface"
  | Comp.monitoring => "Monitoring"

/-- Dispatch a component to its startup action. -/
def compAction (env : StartEnv) : Comp → DPIState → DPIState × Bool
  | Comp.topology => startMininetTopology env
  | Comp.controller => startP4Controller env
  | Comp.packetLogger => startPacketLogger env
  | Comp.trafficGen => startTrafficGenerator env
  | Comp.webInterface => startWebInterface env
  | Comp.monitoring => startMonitoring env

/-- The fixed component order of `start_system` (lines 356-363). -/
def componentList : List Comp :=
  [Comp.topology, Comp.controller, Comp.packetLogger,
   Comp.trafficGen, Comp.webInterface, Comp.monitoring]

/-- Whether a component's startup action reports success in environment
`env` (the outcome of each action does not depend on the orchestrator
state). -/
def compOutcome (env : StartEnv) : Comp → Bool
  | Comp.topology => !env.topologyRaises
  | Comp.controller => env.controllerRaisesAfter.isNone
  | Comp.packetLogger => !env.packetLoggerRaises
  | Comp.trafficGen => !env.trafficGenRaises
  | Comp.webInterface => !env.webRaises
  | Comp.monitoring => !env.monitoringRaises

/-- The component loop of `start_system` (lines 365-373): invoke each action in
order; on the first action returning `False`, stop (the remaining actions are
never invoked).  Also returns the success flag and the list of component names
whose actions were invoked. -/
def runComponents (env : StartEnv) : DPIState → List Comp → DPIState × Bool × List String
  | st, [] => (st, true, [])
  | st, c :: rest =>
      let r := compAction env c st
      if r.2 then
        let rs := runComponents env r.1 rest
        (rs.1, rs.2.1, compName c :: rs.2.2)
      else
        (r.1, false, [compName c])

/-- Result of one `start_system` invocation: the final state, the boolean
return value, the names of the component actions that were invoked, and how
many times the delayed exporter was scheduled. -/
structure StartResult where
  state : DPIState
  ok : Bool
  invoked : List String
  exportScheduled : Nat
  deriving Repr, DecidableEq

/-- `DPISystem.start_system` (lines 340-388): set RunningFlag true, compile
(returning `False` on failure before any component action), run the fixed
ordered component list fail-fast, and on overall success schedule the delayed
exporter exactly once before returning `True`. -/
def startSystem (env : StartEnv) (st : DPIState) : StartResult :=
  let st1 := { st with running := true }
  if compileP4Program env.compile then
    let r := runComponents env st1 componentList
    if r.2.1 then
      { state := r.1, ok := true, invoked := r.2.2, exportScheduled := 1 }
    else
      { state := r.1, ok := false, invoked := r.2.2, exportScheduled := 0 }
  else
    { state := st1, ok := false, invoked := [], exportScheduled := 0 }

/-! ### Shutdown (`stop_system`, lines 390-427) -/

/-- Externally visible calls made by `stop_system`: stop/close calls on the
collaborators, `terminate`/`kill` on a registered process, `join` on a
registered thread. -/
inductive Signal where
  | stopTrafficGen
  | stopController
  | closeLogger
  | stopTopology
  | terminate (name : String)
  | kill (name : String)
  | joinThread (name : String)
  deriving Repr, DecidableEq

/-- Environment for one `stop_system` invocation: which collaborator stop call
raises, and for each registered process whether `wait(timeout=5)` times out
(raising `TimeoutExpired`, so the bare `except` falls back to `kill`). -/
structure StopEnv where
  tgStopRaises : Bool
  controllerStopRaises : Bool
  loggerCloseRaises : Bool
  topologyStopRaises : Bool
  waitTimesOut : String → Bool

/-- The per-process loop of `stop_system` (lines 412-418): for each handle,
call `terminate` then `wait(timeout=5)` inside a bare `try`; if the wait times
out, the handler calls `kill`. -/
def terminateProcesses (env : StopEnv) : List String → List Signal
  | [] => []
  | p :: rest =>
      if env.waitTimesOut p then
        Signal.terminate p :: Signal.kill p :: terminateProcesses env rest
      else
        Signal.terminate p :: terminateProcesses env rest

/-- The calls `stop_system` issues, and whether its single outer `except`
handler was entered (logging the exception).  The whole body after
`self.running = False` sits in ONE `try`; an exception raised by a collaborator
stop call propagates to that outer handler, so every later step is skipped. -/
def stopSignals (env : StopEnv) (st : DPIState) : List Signal × Bool :=
  let s1 : List Signal := if st.trafficGenerator.isSome then [Signal.stopTrafficGen] else []
  if st.trafficGenerator.isSome && env.tgStopRaises then (s1, true)
  else
    let s2 := s1 ++ (if st.controller.isSome then [Signal.stopController] else [])
    if st.controller.isSome && env.controllerStopRaises then (s2, true)
    else
      let s3 := s2 ++ (if st.loggerComponent then [Signal.closeLogger] else [])
      if st.loggerComponent && env.loggerCloseRaises then (s3, true)
      else
        let s4 := s3 ++ (if st.topology.isSome then [Signal.stopTopology] else [])
        if st.topology.isSome && env.topologyStopRaises then (s4, true)
        else
          let s5 := s4 ++ terminateProcesses env st.processes
          (s5 ++ st.threads.map Signal.joinThread, false)

/-- Result of one `stop_system` invocation. -/
structure StopResult where
  state : DPIState
  signals : List Signal
  exceptionLogged : Bool
  deriving Repr, DecidableEq

/-- `DPISystem.stop_system` (lines 390-427): set RunningFlag false, then in a
single `try` block: stop the traffic generator, stop the controller, close the
packet logger, stop the topology, terminate/kill every registered process,
join every registered thread.  The only state attribute it writes is
`running`: neither registry is cleared and no collaborator reference is reset,
which is exactly what `StopResult.state` records. -/
def stopSystem (env : StopEnv) (st : DPIState) : StopResult :=
  { state := { st with running := false }
    signals := (stopSignals env st).1
    exceptionLogged := (stopSignals env st).2 }

/-- A process handle `p` is no longer alive after a `stop_system` that emitted
`sigs`: either it was asked to terminate and its graceful termination
completed within the wait timeout, or it was force-killed. -/
def deadAfterStop (env : StopEnv) (sigs : List Signal) (p : String) : Prop :=
  (Signal.terminate p ∈ sigs ∧ env.waitTimesOut p = false) ∨ Signal.kill p ∈ sigs

instance (env : StopEnv) (sigs : List Signal) (p : String) :
    Decidable (deadAfterStop env sigs p) := by
  unfold deadAfterStop; infer_instance

/-! ### Health monitoring (`check_system_health`, lines 299-332, and
`log_statistics`, lines 334-338) -/

/-- `check_system_health` (lines 299-332): the `components` mapping of the
health snapshot, with exactly the four keys the code writes, in insertion
order, each mapped to `"running"` or `"stopped"` by presence of the
corresponding in-process collaborator reference. -/
def checkSystemHealth (st : DPIState) : List (String × String) :=
  [("controller", if st.controller.isSome then "running" else "stopped"),
   ("logger", if st.loggerComponent then "running" else "stopped"),
   ("traffic_generator", if st.trafficGenerator.isSome then "running" else "stopped"),
   ("topology", if st.topology.isSome then "running" else "stopped")]

/-- `log_statistics` (lines 334-338): whether the statistics pull
`self.controller.get_real_time_stats()` is performed (it is guarded by
`if self.controller:`). -/
def logStatistics (st : DPIState) : Bool :=
  st.controller.isSome

/-! ### Delayed exporter (`schedule_initial_export`, lines 456-476) -/

/-- Python `int()` applied to a (rational-valued) configuration number:
truncation toward zero. -/
def pyInt (q : ℚ) : ℤ :=
  if 0 ≤ q then ⌊q⌋ else ⌈q⌉

/-- The number of seconds `_export_after_delay` sleeps before invoking the
export command: `time.sleep(max(1, int(delay)))` (line 463). -/
def exportSleepSeconds (delay : ℚ) : ℚ :=
  max 1 (pyInt delay : ℚ)

/-! ### The top-level driver (`run`, lines 429-454, and `main`,
lines 483-509) -/

/-- The three operation modes accepted by `main` (lines 490-491). -/
inductive Mode where
  | start
  | stop
  | restart
  deriving Repr, DecidableEq

/-- Environment for a whole `main` invocation: the environments of the (up to
two) `start_system` / `stop_system` calls it performs. -/
structure MainEnv where
  startEnv : StartEnv
  stopEnv1 : StopEnv
  stopEnv2 : StopEnv

/-- `DPISystem.run` (lines 429-454): `start_system` (which writes the
RunningFlag `true` at entry), the supervising wait loop (which only reads the
flag), then unconditionally `stop_system` in the `finally` block (which writes
`false`).  Returns the final state together with the sequence of values
written to the RunningFlag, in order. -/
def runSystem (senv : StartEnv) (penv : StopEnv) (st : DPIState) :
    DPIState × List Bool :=
  let r := startSystem senv st
  let s := stopSystem penv r.state
  (s.state, [r.state.running, s.state.running])

/-- The sequence of values the RunningFlag takes on one `DPISystem` instance
driven by `main` (lines 500-509): the value written by `__init__`, followed by
every value written by the operations of the selected mode. -/
def mainFlagTrace (mode : Mode) (env : MainEnv) : List Bool :=
  initialState.running ::
    (match mode with
     | Mode.start => (runSystem env.startEnv env.stopEnv1 initialState).2
     | Mode.stop => [(stopSystem env.stopEnv1 initialState).state.running]
     | Mode.restart =>
        let s1 := stopSystem env.stopEnv1 initialState
        s1.state.running ::
          (runSystem env.startEnv env.stopEnv2 s1.state).2)

/-- Number of adjacent true→false transitions in a flag trace. -/
def trueFalseTransitions : List Bool → Nat
  | true :: false :: rest => 1 + trueFalseTransitions (false :: rest)
  | _ :: rest => trueFalseTransitions rest
  | [] => 0

/-- Scan state for detecting a `true … false … true` subsequence: 0 = nothing
seen, 1 = a `true` seen, 2 = a `true` then later a `false` seen, 3 = a
`true`, later a `false`, later a `true` seen. -/
def tftStep : Nat → Bool → Nat
  | 0, true => 1
  | 0, false => 0
  | 1, false => 2
  | 1, true => 1
  | 2, true => 3
  | 2, false => 2
  | n, _ => n

/-- Whether the trace contains a `true … false … true` subsequence, i.e. the
flag is observed `false` and later observed `true` again after having been
`true`. -/
def retriggers (l : List Bool) : Bool :=
  l.foldl tftStep 0 == 3

/-! ### Operations on one instance (for invariants over every reachable
state) -/

/-- The operations `main` can perform on one `DPISystem` instance after
construction, together with the monitoring-loop body steps. -/
inductive SysOp where
  | startOp (env : StartEnv)
  | stopOp (env : StopEnv)
  | healthTick
  | statsTick

/-- The effect of each operation on the orchestrator state
(`check_system_health` and `log_statistics` only read the state and write to
files/logs). -/
def applyOp (st : DPIState) : SysOp → DPIState
  | SysOp.startOp env => (startSystem env st).state
  | SysOp.stopOp env => (stopSystem env st).state
  | SysOp.healthTick => st
  | SysOp.statsTick => st

/-- The state reached from a fresh instance after a sequence of operations. -/
def applyOps (ops : List SysOp) : DPIState :=
  ops.foldl applyOp initialState

/-! ### Concrete environments and states used to instantiate theorems -/

/-- A compile environment in which `p4c` exists and both invocations
succeed. -/
def compileOk : CompileEnv :=
  { compilerAbsent := false, versionReturncode := 0, compileReturncode := 0 }

/-- A startup environment in which everything succeeds (two switches
configured). -/
def envAllGood : StartEnv :=
  { compile := compileOk
    topologyRaises := false
    topologyTrafficRaises := false
    switches := ["s1", "s2"]
    controllerRaisesAfter := none
    packetLoggerRaises := false
    trafficGenRaises := false
    webRaises := false
    monitoringRaises := false }

/-- A startup environment in which the packet-logger action (the third
component) fails and everything before it succeeds. -/
def envPacketLoggerFails : StartEnv :=
  { envAllGood with packetLoggerRaises := true }

/-- A startup environment in which the compiler binary is absent. -/
def envCompilerAbsent : StartEnv :=
  { envAllGood with compile := { compileOk with compilerAbsent := true } }

/-- A shutdown environment in which no collaborator stop call raises and
every graceful wait succeeds within the timeout. -/
def stopEnvBenign : StopEnv :=
  { tgStopRaises := false
    controllerStopRaises := false
    loggerCloseRaises := false
    topologyStopRaises := false
    waitTimesOut := fun _ => false }

/-- A shutdown environment in which `stop_traffic_generation` raises. -/
def stopEnvTGRaises : StopEnv :=
  { stopEnvBenign with tgStopRaises := true }

/-- An orchestrator state as left by a successful startup: traffic generator,
topology and packet logger present, two process handles and some thread
handles registered. -/
def stStarted : DPIState :=
  { running := true
    controller := none
    trafficGenerator := some ()
    topology := some ()
    loggerComponent := true
    threads := ["topology", "traffic_generation", "monitoring"]
    processes := ["p4c_s1", "flask_api"] }

/-- A benign whole-`main` environment. -/
def mainEnvGood : MainEnv :=
  { startEnv := envAllGood, stopEnv1 := stopEnvBenign, stopEnv2 := stopEnvBenign }

/-! ## Helper lemmas -/

theorem compAction_snd (env : StartEnv) (c : Comp) (st : DPIState) :
    (compAction env c st).2 = compOutcome env c := by
  cases c
  case topology =>
    by_cases h : env.topologyRaises <;>
      simp [compAction, startMininetTopology, compOutcome, h]
  case controller =>
    cases h : env.controllerRaisesAfter <;>
      simp [compAction, startP4Controller, compOutcome, h]
  case packetLogger =>
    by_cases h : env.packetLoggerRaises <;>
      simp [compAction, startPacketLogger, compOutcome, h]
  case trafficGen =>
    by_cases h : env.trafficGenRaises <;>
      simp [compAction, startTrafficGenerator, compOutcome, h]
  case webInterface =>
    by_cases h : env.webRaises <;>
      simp [compAction, startWebInterface, compOutcome, h]
  case monitoring =>
    by_cases h : env.monitoringRaises <;>
      simp [compAction, startMonitoring, compOutcome, h]

theorem compAction_running (env : StartEnv) (c : Comp) (st : DPIState) :
    ((compAction env c st).1).running = st.running := by
  cases c <;>
    simp [compAction, startMininetTopology, startP4Controller, startPacketLogger,
      startTrafficGenerator, startWebInterface, startMonitoring] <;>
    split <;> rfl

theorem compAction_controller (env : StartEnv) (c : Comp) (st : DPIState) :
    ((compAction env c st).1).controller = st.controller := by
  cases c <;>
    simp [compAction, startMininetTopology, startP4Controller, startPacketLogger,
      startTrafficGenerator, startWebInterface, startMonitoring] <;>
    split <;> rfl

theorem runComponents_running (env : StartEnv) :
    ∀ (l : List Comp) (st : DPIState),
      ((runComponents env st l).1).running = st.running := by
  intro l
  induction l with
  | nil => intro st; rfl
  | cons c rest ih =>
      intro st
      by_cases h : (compAction env c st).2 = true
      · simp only [runComponents, h, if_true]
        rw [ih, compAction_running]
      · simp only [runComponents, h, if_false, Bool.not_eq_true] at *
        simp [h, compAction_running]

theorem runComponents_controller (env : StartEnv) :
    ∀ (l : List Comp) (st : DPIState),
      ((runComponents env st l).1).controller = st.controller := by
  intro l
  induction l with
  | nil => intro st; rfl
  | cons c rest ih =>
      intro st
      by_cases h : (compAction env c st).2 = true
      · simp only [runComponents, h, if_true]
        rw [ih, compAction_controller]
      · simp only [runComponents, h, if_false, Bool.not_eq_true] at *
        simp [h, compAction_controller]

theorem startSystem_state_running (env : StartEnv) (st : DPIState) :
    (startSystem env st).state.running = true := by
  unfold startSystem
  by_cases hc : compileP4Program env.compile = true
  · simp only [hc, if_true]
    by_cases hr : (runComponents env { st with running := true } componentList).2.1 = true <;>
      simp [hr, runComponents_running]
  · simp only [Bool.not_eq_true] at hc
    simp [hc]

theorem startSystem_state_controller (env : StartEnv) (st : DPIState) :
    (startSystem env st).state.controller = st.controller := by
  unfold startSystem
  by_cases hc : compileP4Program env.compile = true
  · simp only [hc, if_true]
    by_cases hr : (runComponents env { st with running := true } componentList).2.1 = true <;>
      simp [hr, runComponents_controller]
  · simp only [Bool.not_eq_true] at hc
    simp [hc]

theorem runComponents_failfast (env : StartEnv) :
    ∀ (pre : List Comp) (c : Comp) (suf : List Comp) (st : DPIState),
      (∀ d ∈ pre, compOutcome env d = true) → compOutcome env c = false →
      (runComponents env st (pre ++ c :: suf)).2 =
        (false, pre.map compName ++ [compName c]) := by
  intro pre
  induction pre with
  | nil =>
      intro c suf st _ hc
      simp [runComponents, compAction_snd, hc]
  | cons p pre ih =>
      intro c suf st hpre hc
      have hp : compOutcome env p = true := hpre p (List.mem_cons_self _ _)
      have ihr := ih c suf (compAction env p st).1
        (fun d hd => hpre d (List.mem_cons_of_mem _ hd)) hc
      simp [runComponents, compAction_snd, hp, ihr]

theorem terminate_mem (env : StopEnv) :
    ∀ (ps : List String) (p : String), p ∈ ps →
      Signal.terminate p ∈ terminateProcesses env ps := by
  intro ps
  induction ps with
  | nil => intro p hp; cases hp
  | cons q rest ih =>
      intro p hp
      rcases List.mem_cons.mp hp with h | h
      · subst h
        by_cases hw : env.waitTimesOut p = true <;> simp [terminateProcesses, hw]
      · by_cases hw : env.waitTimesOut q = true <;>
          simp [terminateProcesses, hw, ih p h]

theorem kill_mem (env : StopEnv) :
    ∀ (ps : List String) (p : String), p ∈ ps → env.waitTimesOut p = true →
      Signal.kill p ∈ terminateProcesses env ps := by
  intro ps
  induction ps with
  | nil => intro p hp; cases hp
  | cons q rest ih =>
      intro p hp hw
      rcases List.mem_cons.mp hp with h | h
      · subst h
        simp [terminateProcesses, hw]
      · by_cases hq : env.waitTimesOut q = true <;>
          simp [terminateProcesses, hq, ih p h hw]

theorem stopSignals_no_raise (env : StopEnv) (st : DPIState)
    (h1 : env.tgStopRaises = false) (h2 : env.controllerStopRaises = false)
    (h3 : env.loggerCloseRaises = false) (h4 : env.topologyStopRaises = false) :
    (stopSignals env st).1 =
      ((((if st.trafficGenerator.isSome then [Signal.stopTrafficGen] else []) ++
        (if st.controller.isSome then [Signal.stopController] else [])) ++
        (if st.loggerComponent then [Signal.closeLogger] else [])) ++
        (if st.topology.isSome then [Signal.stopTopology] else [])) ++
        terminateProcesses env st.processes ++
        st.threads.map Signal.joinThread := by
  simp [stopSignals, h1, h2, h3, h4]

theorem terminate_mem_stopSignals (env : StopEnv) (st : DPIState)
    (h1 : env.tgStopRaises = false) (h2 : env.controllerStopRaises = false)
    (h3 : env.loggerCloseRaises = false) (h4 : env.topologyStopRaises = false)
    (p : String) (hp : p ∈ st.processes) :
    Signal.terminate p ∈ (stopSignals env st).1 := by
  rw [stopSignals_no_raise env st h1 h2 h3 h4]
  exact List.mem_append_left _ (List.mem_append_right _ (terminate_mem env st.processes p hp))

/-! ## Claim theorems -/

/-- C3: for the fixed ordered component list in `start_system`, if the action
at position `k = pre.length` returns failure after every earlier action has
returned success, then `start_system` returns `False` and the invoked actions
are exactly the first `k+1` of the list — the actions after the failing one
are never invoked. -/
theorem start_system_failfast (env : StartEnv) (st : DPIState)
    (pre : List Comp) (c : Comp) (suf : List Comp)
    (hsplit : componentList = pre ++ c :: suf)
    (hpre : ∀ d ∈ pre, compOutcome env d = true)
    (hc : compOutcome env c = false)
    (hcompile : compileP4Program env.compile = true) :
    (startSystem env st).ok = false ∧
    (startSystem env st).invoked = pre.map compName ++ [compName c] := by
  have h := runComponents_failfast env pre c suf { st with running := true } hpre hc
  rw [startSystem, hsplit]
  simp only [hcompile, if_true, h]
  simp

/-- Witness for C3: with a working compiler, successful topology and
controller actions and a failing packet-logger action (position 2), the
system reports failure and exactly the first three components were
invoked. -/
theorem start_system_failfast_witness :
    (startSystem envPacketLoggerFails initialState).ok = false ∧
    (startSystem envPacketLoggerFails initialState).invoked =
      ["Mininet Topology", "P4 Controller", "Packet Logger"] := by
  have h := start_system_failfast envPacketLoggerFails initialState
    [Comp.topology, Comp.controller] Comp.packetLogger
    [Comp.trafficGen, Comp.webInterface, Comp.monitoring]
    rfl (by decide) (by decide) (by decide)
  simpa using h

/-- C5: if the external compiler binary is absent, `start_system` on a fresh
instance returns `False` with no component action invoked, and both the
process registry and the thread registry are still empty. -/
theorem start_compiler_absent (env : StartEnv)
    (h : env.compile.compilerAbsent = true) :
    (startSystem env initialState).ok = false ∧
    (startSystem env initialState).invoked = [] ∧
    (startSystem env initialState).state.processes = [] ∧
    (startSystem env initialState).state.threads = [] := by
  simp [startSystem, compileP4Program, h, initialState]

/-- Witness for C5: a concrete environment whose compiler is absent. -/
theorem start_compiler_absent_witness :
    (startSystem envCompilerAbsent initialState).ok = false ∧
    (startSystem envCompilerAbsent initialState).invoked = [] ∧
    (startSystem envCompilerAbsent initialState).state.processes = [] ∧
    (startSystem envCompilerAbsent initialState).state.threads = [] :=
  start_compiler_absent envCompilerAbsent rfl

/-- C8: when `start_system` returns `False` the RunningFlag remains `true`:
the flag is assigned `true` at entry, before compilation, and no failure
path of `start_system` resets it. -/
theorem start_system_failure_keeps_running (env : StartEnv) (st : DPIState)
    (_h : (startSystem env st).ok = false) :
    (startSystem env st).state.running = true :=
  startSystem_state_running env st

/-- Witness for C8: the compiler-absent environment makes `start_system`
return `False`, and the RunningFlag is still `true` afterwards. -/
theorem start_system_failure_keeps_running_witness :
    (startSystem envCompilerAbsent initialState).ok = false ∧
    (startSystem envCompilerAbsent initialState).state.running = true :=
  ⟨by decide, start_system_failure_keeps_running envCompilerAbsent initialState (by decide)⟩

/-- C9: for every path naming a nonexistent configuration file, `load_config`
raises (rather than returning the empty configuration) when called with the
logger attribute not yet initialized — which is exactly how the constructor
calls it — so `DPISystem(...)` itself raises. -/
theorem load_config_missing_file_raises (env : InitEnv)
    (h : env.configFileExists = false) :
    loadConfig env false = Except.error PyError.attributeError ∧
    dpiInit env = Except.error PyError.attributeError := by
  simp [loadConfig, dpiInit, h]

/-- Witness for C9: a concrete environment whose configuration file does not
exist. -/
theorem load_config_missing_file_raises_witness :
    loadConfig { configFileExists := false, configContents := [] } false =
      Except.error PyError.attributeError ∧
    dpiInit { configFileExists := false, configContents := [] } =
      Except.error PyError.attributeError :=
  load_config_missing_file_raises { configFileExists := false, configContents := [] } rfl

/-- C1 counterexample: starting from a started state with recorded handles, a
benign `stop_system` leaves the process registry non-empty (the code never
clears `self.processes` / `self.threads`), and a second invocation issues
externally visible signals again (its signal list is non-empty — it re-calls
`stop_traffic_generation`, re-terminates every registered process, and
re-joins every thread). -/
theorem stop_system_idempotence_cex :
    (stopSystem stopEnvBenign stStarted).state.processes ≠ [] ∧
    (stopSystem stopEnvBenign ((stopSystem stopEnvBenign stStarted).state)).signals ≠ [] := by
  decide

/-- C1 amended: `stop_system` is idempotent on the orchestrator state — a
second invocation yields the same final state, with the RunningFlag false —
but the handle registries are NOT emptied (they keep exactly their prior
contents), and a second invocation does issue externally visible termination
signals: whenever no collaborator stop call raises, it re-issues `terminate`
to every process still in the registry. -/
theorem stop_system_idempotent_amended (env1 env2 : StopEnv) (st : DPIState) :
    (stopSystem env2 (stopSystem env1 st).state).state = (stopSystem env1 st).state ∧
    (stopSystem env1 st).state.running = false ∧
    (stopSystem env1 st).state.processes = st.processes ∧
    (stopSystem env1 st).state.threads = st.threads ∧
    (env2.tgStopRaises = false → env2.controllerStopRaises = false →
     env2.loggerCloseRaises = false → env2.topologyStopRaises = false →
     ∀ p ∈ st.processes,
       Signal.terminate p ∈ (stopSystem env2 (stopSystem env1 st).state).signals) := by
  refine ⟨rfl, rfl, rfl, rfl, ?_⟩
  intro h1 h2 h3 h4 p hp
  exact terminate_mem_stopSignals env2 _ h1 h2 h3 h4 p hp

/-- Witness for the amended C1, at a concrete started state: the second stop
yields the same state and re-issues `terminate` to the registered worker
process. -/
theorem stop_system_idempotent_amended_witness :
    (stopSystem stopEnvBenign (stopSystem stopEnvBenign stStarted).state).state =
      (stopSystem stopEnvBenign stStarted).state ∧
    Signal.terminate "p4c_s1" ∈
      (stopSystem stopEnvBenign (stopSystem stopEnvBenign stStarted).state).signals :=
  ⟨(stop_system_idempotent_amended stopEnvBenign stopEnvBenign stStarted).1,
   (stop_system_idempotent_amended stopEnvBenign stopEnvBenign stStarted).2.2.2.2
     rfl rfl rfl rfl "p4c_s1" (by decide)⟩

/-- C2 counterexample: when `stop_traffic_generation` raises during
`stop_system` on a fully started state, the only call made is that first one:
the packet logger is not closed, the topology is not stopped and the
registered process receives no `terminate`, even though all of them are
present — the subsequent shutdown steps are prevented from running. -/
theorem stop_exception_skips_rest_cex :
    (stopSystem stopEnvTGRaises stStarted).signals = [Signal.stopTrafficGen] ∧
    (stopSystem stopEnvTGRaises stStarted).exceptionLogged = true ∧
    stStarted.loggerComponent = true ∧
    stStarted.topology.isSome = true ∧
    "p4c_s1" ∈ stStarted.processes ∧
    Signal.closeLogger ∉ (stopSystem stopEnvTGRaises stStarted).signals ∧
    Signal.stopTopology ∉ (stopSystem stopEnvTGRaises stStarted).signals ∧
    Signal.terminate "p4c_s1" ∉ (stopSystem stopEnvTGRaises stStarted).signals := by
  decide

/-- C2 amended: an exception raised by a shutdown step is caught and logged by
the single outer handler of `stop_system`, but it aborts all remaining
shutdown steps (shown here for the first step, stopping the traffic
generator: nothing else is attempted).  Only a failed `terminate`/`wait` for
an individual process is handled inline, falling back to `kill` and letting
the process loop continue with the remaining handles. -/
theorem stop_exception_logged_but_aborts (env : StopEnv) (st : DPIState)
    (htg : st.trafficGenerator.isSome = true) (hr : env.tgStopRaises = true) :
    ((stopSystem env st).exceptionLogged = true ∧
     (stopSystem env st).signals = [Signal.stopTrafficGen]) ∧
    ∀ (q : String) (ps : List String),
      terminateProcesses env (q :: ps) =
        (if env.waitTimesOut q then [Signal.terminate q, Signal.kill q]
         else [Signal.terminate q]) ++ terminateProcesses env ps := by
  constructor
  · constructor <;> simp [stopSystem, stopSignals, htg, hr]
  · intro q ps
    by_cases hw : env.waitTimesOut q = true <;> simp [terminateProcesses, hw]

/-- Witness for the amended C2 at a concrete environment and started
state. -/
theorem stop_exception_logged_but_aborts_witness :
    (stopSystem stopEnvTGRaises stStarted).exceptionLogged = true ∧
    (stopSystem stopEnvTGRaises stStarted).signals = [Signal.stopTrafficGen] :=
  (stop_exception_logged_but_aborts stopEnvTGRaises stStarted rfl rfl).1

/-- C4 counterexample: with the traffic-generator stop raising, the worker
process registered at `stop_system` entry is neither terminated nor killed —
it is still alive after `stop_system` returns. -/
theorem stop_process_left_alive_cex :
    "p4c_s1" ∈ stStarted.processes ∧
    stStarted.trafficGenerator.isSome = true ∧
    ¬ deadAfterStop stopEnvTGRaises (stopSystem stopEnvTGRaises stStarted).signals "p4c_s1" := by
  decide

/-- C4 amended: provided no collaborator shutdown step raises (so the
per-process loop is actually reached), every process handle present in the
registry when `stop_system` begins receives `terminate`, and is gracefully
terminated within the wait timeout or force-killed — no such process is still
alive after `stop_system` returns. -/
theorem stop_terminates_all_processes (env : StopEnv) (st : DPIState)
    (h1 : env.tgStopRaises = false) (h2 : env.controllerStopRaises = false)
    (h3 : env.loggerCloseRaises = false) (h4 : env.topologyStopRaises = false) :
    ∀ p ∈ st.processes,
      Signal.terminate p ∈ (stopSystem env st).signals ∧
      deadAfterStop env (stopSystem env st).signals p := by
  intro p hp
  have hterm := terminate_mem_stopSignals env st h1 h2 h3 h4 p hp
  refine ⟨hterm, ?_⟩
  by_cases hw : env.waitTimesOut p = true
  · refine Or.inr ?_
    rw [show (stopSystem env st).signals = (stopSignals env st).1 from rfl,
        stopSignals_no_raise env st h1 h2 h3 h4]
    exact List.mem_append_left _ (List.mem_append_right _ (kill_mem env st.processes p hp hw))
  · exact Or.inl ⟨hterm, by simpa using hw⟩

/-- Witness for the amended C4: in a benign environment the registered worker
process is terminated. -/
theorem stop_terminates_all_processes_witness :
    Signal.terminate "p4c_s1" ∈ (stopSystem stopEnvBenign stStarted).signals ∧
    deadAfterStop stopEnvBenign (stopSystem stopEnvBenign stStarted).signals "p4c_s1" :=
  stop_terminates_all_processes stopEnvBenign stStarted rfl rfl rfl rfl "p4c_s1" (by decide)

/-- C6 counterexample: the delayed exporter sleeps `max(1, int(delay))`
seconds, and Python's `int` truncates — for the configured delay 5/2 the
export fires after 2 seconds, which is earlier than
`max(1, configuredDelay) = 5/2` seconds. -/
theorem export_delay_truncation_cex :
    exportSleepSeconds (5/2) < max 1 ((5 : ℚ)/2) := by
  have hfloor : ⌊(5 : ℚ)/2⌋ = 2 := by
    rw [Int.floor_eq_iff]
    constructor <;> norm_num
  have h : exportSleepSeconds (5/2) = 2 := by
    rw [exportSleepSeconds, pyInt, if_pos (by norm_num : (0:ℚ) ≤ 5/2), hfloor]
    norm_num
  rw [h, max_eq_right (by norm_num : (1:ℚ) ≤ 5/2)]
  norm_num

/-- C6 amended: the delayed exporter is scheduled exactly once per successful
startup and never on a failed one (so it fires at most once per run, the
one-shot task body invoking the export command a single time), and its export
command is not invoked earlier than `max(1, int(configuredDelay))` seconds
after being scheduled, where `int` truncates toward zero; for every
integer-valued configured delay this equals `max(1, configuredDelay)`. -/
theorem schedule_initial_export_spec :
    (∀ d : ℚ, exportSleepSeconds d = max 1 ((pyInt d : ℚ))) ∧
    (∀ n : ℤ, exportSleepSeconds (n : ℚ) = max 1 ((n : ℚ))) ∧
    (∀ (env : StartEnv) (st : DPIState),
      (startSystem env st).ok = true → (startSystem env st).exportScheduled = 1) ∧
    (∀ (env : StartEnv) (st : DPIState), (startSystem env st).exportScheduled ≤ 1) := by
  refine ⟨fun d => rfl, ?_, ?_, ?_⟩
  · intro n
    have hn : pyInt (n : ℚ) = n := by
      rw [pyInt]
      by_cases h : (0:ℚ) ≤ (n : ℚ)
      · rw [if_pos h, Int.floor_intCast]
      · rw [if_neg h, Int.ceil_intCast]
    rw [exportSleepSeconds, hn]
  · intro env st h
    rw [startSystem] at h ⊢
    by_cases hc : compileP4Program env.compile = true
    · simp only [hc, if_true] at h ⊢
      by_cases hr : (runComponents env { st with running := true } componentList).2.1 = true
      · simp [hr]
      · simp [hr] at h
    · simp only [Bool.not_eq_true] at hc
      simp [hc] at h
  · intro env st
    rw [startSystem]
    by_cases hc : compileP4Program env.compile = true
    · simp only [hc, if_true]
      by_cases hr : (runComponents env { st with running := true } componentList).2.1 = true <;>
        simp [hr]
    · simp only [Bool.not_eq_true] at hc
      simp [hc]

/-- Witness for the amended C6: the default integer delay 20 sleeps
`max(1, 20)` seconds, and the all-good startup schedules the exporter exactly
once. -/
theorem schedule_initial_export_spec_witness :
    exportSleepSeconds ((20 : ℤ) : ℚ) = max 1 (((20 : ℤ) : ℚ)) ∧
    (startSystem envAllGood initialState).exportScheduled = 1 :=
  ⟨schedule_initial_export_spec.2.1 20,
   schedule_initial_export_spec.2.2.1 envAllGood initialState (by decide)⟩

/-- C7: for every operation mode of `main` and every environment, the
sequence of values taken by the RunningFlag of the single `DPISystem`
instance makes at most one true→false transition and never returns to `true`
after a `true … false` prefix has been observed. -/
theorem running_flag_single_transition (mode : Mode) (env : MainEnv) :
    trueFalseTransitions (mainFlagTrace mode env) ≤ 1 ∧
    retriggers (mainFlagTrace mode env) = false := by
  cases mode
  case start =>
    have ht : mainFlagTrace Mode.start env = [false, true, false] := by
      simp [mainFlagTrace, runSystem, startSystem_state_running, stopSystem, initialState]
    rw [ht]
    exact ⟨by decide, by decide⟩
  case stop =>
    have ht : mainFlagTrace Mode.stop env = [false, false] := by
      simp [mainFlagTrace, stopSystem, initialState]
    rw [ht]
    exact ⟨by decide, by decide⟩
  case restart =>
    have ht : mainFlagTrace Mode.restart env = [false, false, true, false] := by
      simp [mainFlagTrace, runSystem, startSystem_state_running, stopSystem, initialState]
    rw [ht]
    exact ⟨by decide, by decide⟩

theorem applyOp_controller (st : DPIState) (op : SysOp) :
    (applyOp st op).controller = st.controller := by
  cases op with
  | startOp env => exact startSystem_state_controller env st
  | stopOp env => rfl
  | healthTick => rfl
  | statsTick => rfl

theorem applyOps_controller (ops : List SysOp) :
    (applyOps ops).controller = none := by
  have h : ∀ (l : List SysOp) (st : DPIState),
      (l.foldl applyOp st).controller = st.controller := by
    intro l
    induction l with
    | nil => intro st; rfl
    | cons op rest ih => intro st; rw [List.foldl_cons, ih, applyOp_controller]
  rw [applyOps, h]
  rfl

/-- C10: in every state reachable by any sequence of operations on one
instance, the controller collaborator reference is still `None`; consequently
every health snapshot maps `controller` to `"stopped"`, every snapshot
contains exactly the four component keys `controller`, `logger`,
`traffic_generator`, `topology` (in that order), and `log_statistics` never
retrieves controller statistics. -/
theorem controller_never_assigned (ops : List SysOp) :
    (applyOps ops).controller = none ∧
    ("controller", "stopped") ∈ checkSystemHealth (applyOps ops) ∧
    (checkSystemHealth (applyOps ops)).map Prod.fst =
      ["controller", "logger", "traffic_generator", "topology"] ∧
    logStatistics (applyOps ops) = false := by
  have h := applyOps_controller ops
  refine ⟨h, ?_, rfl, ?_⟩
  · simp [checkSystemHealth, h]
  · simp [logStatistics, h]

end DPI
